import Mathlib

/-!
# async-profiler: the `Profiler` header and its Java binding layer

A shallow embedding of `src/profiler.h` and `src/javaApi.cpp`.

* C++ `int` / `jint` values are `Int`; `u64` values are `Nat` below `2 ^ 64`.
* Pointers that the header only stores or forwards (`jmethodID`, code
  addresses) are natural numbers.
* Classes the header uses but does not define (`CodeCache`, `SpinLock`,
  `ASGCT_CallFrame`, the JNI environment) are type or function parameters.
-/

set_option autoImplicit false

namespace AsyncProfiler

/-! ## Constants (`profiler.h`, lines 26-35) -/

def MAX_CALLTRACES : Int := 32768
def MAX_STACK_FRAMES : Int := 4096
def MAX_NATIVE_FRAMES : Int := 128
def MAX_NATIVE_LIBS : Int := 4096
def CONCURRENCY_LEVEL : Int := 16

def DEFAULT_FRAME_BUFFER_SIZE : Int := 1024 * 1024
def DEFAULT_INTERVAL : Int := 10
def DEFAULT_DURATION : Int := 3600
def DEFAULT_TRACES_TO_DUMP : Int := 500

/-- Number of values of `unsigned long long` (`typedef unsigned long long u64`). -/
def U64_RANGE : Nat := 2 ^ 64

/-- Source: `static inline int cmp64(u64 a, u64 b)`:
`return a > b ? 1 : a == b ? 0 : -1;`. -/
def cmp64 (a b : Nat) : Int :=
  if a > b then 1 else if a = b then 0 else -1

/-! ## Samples (`profiler.h`, lines 45-70) -/

/-- Source: `class CallTraceSample`: an occurrence counter and the (offset, length)
of the trace in the frame buffer. -/
structure CallTraceSample where
  _counter : Nat
  _start_frame : Int
  _num_frames : Int
  deriving DecidableEq, Repr

/-- Source: `CallTraceSample::comparator(s1, s2)`:
`return cmp64(s2->_counter, s1->_counter);`. -/
def CallTraceSample.comparator (s1 s2 : CallTraceSample) : Int :=
  cmp64 s2._counter s1._counter

/-- Source: `class MethodSample`: an occurrence counter and a `jmethodID`. -/
structure MethodSample where
  _counter : Nat
  _method : Nat
  deriving DecidableEq, Repr

/-- Source: `MethodSample::comparator(s1, s2)`:
`return cmp64(s2->_counter, s1->_counter);`. -/
def MethodSample.comparator (s1 s2 : MethodSample) : Int :=
  cmp64 s2._counter s1._counter

/-! ## Stack-walk status codes (`profiler.h`, lines 75-90) -/

def ticks_no_Java_frame : Int := 0
def ticks_no_class_load : Int := -1
def ticks_GC_active : Int := -2
def ticks_unknown_not_Java : Int := -3
def ticks_not_walkable_not_Java : Int := -4
def ticks_unknown_Java : Int := -5
def ticks_not_walkable_Java : Int := -6
def ticks_unknown_state : Int := -7
def ticks_thread_exit : Int := -8
def ticks_deopt : Int := -9
def ticks_safepoint : Int := -10
def ticks_skipped : Int := -11
def FAILURE_TYPES : Int := 12

/-- The twelve failure reasons of the anonymous enum, in declaration order
(`FAILURE_TYPES`, the array length, is not one of them). -/
def failureCodes : List Int :=
  [ticks_no_Java_frame, ticks_no_class_load, ticks_GC_active, ticks_unknown_not_Java,
   ticks_not_walkable_not_Java, ticks_unknown_Java, ticks_not_walkable_Java,
   ticks_unknown_state, ticks_thread_exit, ticks_deopt, ticks_safepoint, ticks_skipped]

/-! ## The `Profiler` class (`profiler.h`, lines 72-168) -/

/-- Data members of `class Profiler`, in declaration order. `_frame_buffer`
is a pointer: `none` is `NULL`. The classes `CodeCache`, `SpinLock` and
`ASGCT_CallFrame` come from headers outside this development. -/
structure Profiler (CodeCache SpinLock ASGCT_CallFrame : Type) where
  _running : Bool
  _samples : Nat
  _failures : List Nat
  _hashes : List Nat
  _traces : List CallTraceSample
  _methods : List MethodSample
  _locks : List SpinLock
  _asgct_buffer : List (List ASGCT_CallFrame)
  _frame_buffer : Option (List Nat)
  _frame_buffer_size : Int
  _frame_buffer_index : Int
  _frame_buffer_overflow : Bool
  _java_code : CodeCache
  _native_code : List (Option CodeCache)
  _native_libs : Int
  _deadline : Int

/-- Third argument of `CodeCache::add`: a `jmethodID` (compiled methods) or a
name owned by the cache (dynamically generated code). -/
inductive CodeSymbol (NameRef : Type) where
  | method (m : Nat)
  | name (s : NameRef)
  deriving DecidableEq, Repr

/-- Member functions of `CodeCache` (declared in `symbols.h`) that
`profiler.h` calls: the constructor from a name, `add(start, length, symbol)`,
`remove(start, method)` and `addString(s)`, which stores a copy of `s` in the
cache and returns it. -/
structure CodeCacheApi (CodeCache NameRef : Type) where
  create : String → CodeCache
  add : CodeCache → Nat → Int → CodeSymbol NameRef → CodeCache
  remove : CodeCache → Nat → Nat → CodeCache
  addString : CodeCache → String → CodeCache × NameRef

section ProfilerMembers

variable {CodeCache SpinLock ASGCT_CallFrame NameRef : Type}

/-- Constructor `Profiler()`. Its member-initialiser list sets `_running`,
`_frame_buffer`, `_frame_buffer_size`, `_java_code` and `_native_libs`; the
other members keep what the storage `mem` holds. -/
def Profiler.construct (cc : CodeCacheApi CodeCache NameRef)
    (mem : Profiler CodeCache SpinLock ASGCT_CallFrame) :
    Profiler CodeCache SpinLock ASGCT_CallFrame :=
  { mem with
    _running := false
    _frame_buffer := none
    _frame_buffer_size := DEFAULT_FRAME_BUFFER_SIZE
    _java_code := cc.create "[jvm]"
    _native_libs := 0 }

/-- Source: `bool running() { return _running; }`. -/
def Profiler.running (p : Profiler CodeCache SpinLock ASGCT_CallFrame) : Bool :=
  p._running

/-- Conversion of a `u64` to `int` in a `return` statement: the value modulo
`2 ^ 32`, read as two's complement (what GCC and Clang do, and what C++20
prescribes). -/
def u64_to_int (v : Nat) : Int :=
  if v % 2 ^ 32 < 2 ^ 31 then (v % 2 ^ 32 : Nat) else (v % 2 ^ 32 : Nat) - 2 ^ 32

/-- Source: `int samples() { return _samples; }`. -/
def Profiler.samples (p : Profiler CodeCache SpinLock ASGCT_CallFrame) : Int :=
  u64_to_int p._samples

/-- Source: `CompiledMethodLoad(jvmti, method, code_size, code_addr, map_length, map,
compile_info)`: `_instance._java_code.add(code_addr, code_size, method);`.
The JVMTI environment and the last three arguments are not used. -/
def Profiler.CompiledMethodLoad (cc : CodeCacheApi CodeCache NameRef)
    (_instance : Profiler CodeCache SpinLock ASGCT_CallFrame)
    (method : Nat) (code_size : Int) (code_addr : Nat)
    (_map_length : Int) (_map : Nat) (_compile_info : Nat) :
    Profiler CodeCache SpinLock ASGCT_CallFrame :=
  { _instance with
    _java_code := cc.add _instance._java_code code_addr code_size (CodeSymbol.method method) }

/-- Source: `CompiledMethodUnload(jvmti, method, code_addr)`:
`_instance._java_code.remove(code_addr, method);`. -/
def Profiler.CompiledMethodUnload (cc : CodeCacheApi CodeCache NameRef)
    (_instance : Profiler CodeCache SpinLock ASGCT_CallFrame)
    (method : Nat) (code_addr : Nat) :
    Profiler CodeCache SpinLock ASGCT_CallFrame :=
  { _instance with _java_code := cc.remove _instance._java_code code_addr method }

/-- Source: `DynamicCodeGenerated(jvmti, name, address, length)`:
`name_copy = _instance._java_code.addString(name);` then
`_instance._java_code.add(address, length, name_copy);`. -/
def Profiler.DynamicCodeGenerated (cc : CodeCacheApi CodeCache NameRef)
    (_instance : Profiler CodeCache SpinLock ASGCT_CallFrame)
    (name : String) (address : Nat) (length : Int) :
    Profiler CodeCache SpinLock ASGCT_CallFrame :=
  let r := cc.addString _instance._java_code name
  let name_copy := r.2
  { _instance with _java_code := cc.add r.1 address length (CodeSymbol.name name_copy) }

/-- The profilers `p` and `q` agree on every data member other than
`_java_code`. -/
def Profiler.sameExceptJavaCode (p q : Profiler CodeCache SpinLock ASGCT_CallFrame) : Prop :=
  q._running = p._running ∧ q._samples = p._samples ∧ q._failures = p._failures ∧
  q._hashes = p._hashes ∧ q._traces = p._traces ∧ q._methods = p._methods ∧
  q._locks = p._locks ∧ q._asgct_buffer = p._asgct_buffer ∧
  q._frame_buffer = p._frame_buffer ∧ q._frame_buffer_size = p._frame_buffer_size ∧
  q._frame_buffer_index = p._frame_buffer_index ∧
  q._frame_buffer_overflow = p._frame_buffer_overflow ∧
  q._native_code = p._native_code ∧ q._native_libs = p._native_libs ∧
  q._deadline = p._deadline

end ProfilerMembers

/-! ## The Java binding layer (`javaApi.cpp`) -/

/-- Member functions of `Profiler` that `javaApi.cpp` calls and `profiler.h`
only declares: `start(interval, duration)`, `stop()`, `summary(out)`,
`dumpTraces(out, max_traces)` and `dumpMethods(out)`. `P` is the state of
`Profiler::_instance` they act on; a function that takes `std::ostream& out`
yields the text it writes to `out`. -/
structure ProfilerMethods (P : Type) where
  start : P → Int → Int → P
  stop : P → P
  summary : P → P × String
  dumpTraces : P → Int → P × String
  dumpMethods : P → P × String

/-- The JNI function table, as far as `javaApi.cpp` uses it:
`NewStringUTF`, from a C string to a `jstring`. -/
structure JNIEnv (jstring : Type) where
  NewStringUTF : String → jstring

/-- The C string terminator. -/
def NUL : Char := Char.ofNat 0

/-- Source: `std::string::c_str()` read as a C string: the characters before the
first terminator. -/
def c_str (s : String) : String :=
  String.mk (s.data.takeWhile (fun ch => ch != NUL))

section JavaApi

variable {P jstring : Type}

/-- Source: `Java_one_profiler_AsyncProfiler_start0(env, unused, interval)`:
`Profiler::_instance.start(interval ? interval : DEFAULT_INTERVAL);`, the
second argument of `start` being its default `DEFAULT_DURATION`. -/
def Java_one_profiler_AsyncProfiler_start0 (m : ProfilerMethods P) (_instance : P)
    (interval : Int) : P :=
  m.start _instance (if interval ≠ 0 then interval else DEFAULT_INTERVAL) DEFAULT_DURATION

/-- Source: `Java_one_profiler_AsyncProfiler_stop0(env, unused)`:
`Profiler::_instance.stop();`. -/
def Java_one_profiler_AsyncProfiler_stop0 (m : ProfilerMethods P) (_instance : P) : P :=
  m.stop _instance

/-- Source: `Java_one_profiler_AsyncProfiler_dumpTraces0(env, unused, max_traces)`:
an empty `std::ostringstream out`, `summary(out)`,
`dumpTraces(out, max_traces ? max_traces : DEFAULT_TRACES_TO_DUMP)`, then
`return env->NewStringUTF(out.str().c_str());`. -/
def Java_one_profiler_AsyncProfiler_dumpTraces0 (m : ProfilerMethods P) (env : JNIEnv jstring)
    (_instance : P) (max_traces : Int) : P × jstring :=
  let out := ""
  let s := m.summary _instance
  let out := out ++ s.2
  let d := m.dumpTraces s.1 (if max_traces ≠ 0 then max_traces else DEFAULT_TRACES_TO_DUMP)
  let out := out ++ d.2
  (d.1, env.NewStringUTF (c_str out))

end JavaApi

/-- Source: `Java_one_profiler_AsyncProfiler_getSamples(env, unused)`:
`return Profiler::_instance.samples();` (`jint` is `int`). -/
def Java_one_profiler_AsyncProfiler_getSamples {CodeCache SpinLock ASGCT_CallFrame : Type}
    (_instance : Profiler CodeCache SpinLock ASGCT_CallFrame) : Int :=
  _instance.samples

/-! ## Hash addressing of the sample tables -/

/-- Modelled from the spec: the lock shard of a 64-bit hash, section 4.5 step 2,
"Select a lock shard: `hash mod CONCURRENCY_LEVEL`". `storeCallTrace` and
`storeMethod`, which compute it, are declared in `profiler.h` and defined in
`profiler.cpp`, outside this development; the constant is the header's. -/
def shard (hash : Nat) : Nat := hash % CONCURRENCY_LEVEL.toNat

/-- Modelled from the spec: the slot where probing starts, section 4.5 step 3,
"Probe from slot `hash mod MAX_CALLTRACES`". Computed by `storeCallTrace` and
`storeMethod` of `profiler.cpp`, outside this development; the constant is
the header's. -/
def slot (hash : Nat) : Nat := hash % MAX_CALLTRACES.toNat

/-! ## Instances used to evaluate the definitions -/

/-- A call on `Profiler::_instance` as the binding layer makes it. -/
inductive Call where
  | start (interval duration : Int)
  | stop
  | summary
  | dumpTraces (max_traces : Int)
  | dumpMethods
  deriving DecidableEq, Repr

/-- An implementation of the declared member functions that logs each call
with its arguments; `summary`, `dumpTraces` and `dumpMethods` write a fixed
line each. -/
def recorder : ProfilerMethods (List Call) where
  start log interval duration := log ++ [Call.start interval duration]
  stop log := log ++ [Call.stop]
  summary log := (log ++ [Call.summary], "Total: 0\n")
  dumpTraces log max_traces := (log ++ [Call.dumpTraces max_traces], "Traces\n")
  dumpMethods log := (log ++ [Call.dumpMethods], "Methods\n")

/-- A JNI environment whose `jstring` is the text itself. -/
def textEnv : JNIEnv String where
  NewStringUTF s := s

/-- A code cache kept as the list of live `(start, length, symbol)` ranges,
names being stored as they are. -/
def listCache : CodeCacheApi (List (Nat × Int × CodeSymbol String)) String where
  create _ := []
  add c start length sym := c ++ [(start, length, sym)]
  remove c start _ := c.filter (fun e => e.1 != start)
  addString c s := (c, s)

/-- Three call-trace samples with the counters `500, 100, 100`. -/
def sampleTraces : List CallTraceSample :=
  [⟨500, 0, 3⟩, ⟨100, 3, 2⟩, ⟨100, 5, 4⟩]

/-- A profiler over `listCache` with every member zero or empty, but for
`_samples`. -/
def zeroProfiler (samples : Nat) : Profiler (List (Nat × Int × CodeSymbol String)) Unit Unit where
  _running := false
  _samples := samples
  _failures := []
  _hashes := []
  _traces := []
  _methods := []
  _locks := []
  _asgct_buffer := []
  _frame_buffer := none
  _frame_buffer_size := 0
  _frame_buffer_index := 0
  _frame_buffer_overflow := false
  _java_code := []
  _native_code := []
  _native_libs := 0
  _deadline := 0

end AsyncProfiler

/-! # Theorems -/

namespace AsyncProfiler

/-! ## `cmp64` and the comparators -/

theorem cmp64_eq_sign (a b : Nat) : cmp64 a b = Int.sign ((a : Int) - (b : Int)) := by
  unfold cmp64
  rcases Nat.lt_trichotomy a b with h | h | h
  · have h1 : ¬ a > b := by omega
    have h2 : ¬ a = b := by omega
    have h3 : (a : Int) - (b : Int) < 0 := by omega
    simp [h1, h2, Int.sign_eq_neg_one_of_neg h3]
  · subst h
    simp
  · have h3 : 0 < (a : Int) - (b : Int) := by omega
    simp [h, Int.sign_eq_one_of_pos h3]

theorem cmp64_nonpos_iff (a b : Nat) : cmp64 a b ≤ 0 ↔ a ≤ b := by
  unfold cmp64
  split_ifs <;> omega

theorem cmp64_neg_iff (a b : Nat) : cmp64 a b < 0 ↔ a < b := by
  unfold cmp64
  split_ifs <;> omega

theorem cmp64_pos_iff (a b : Nat) : 0 < cmp64 a b ↔ b < a := by
  unfold cmp64
  split_ifs <;> omega

theorem cmp64_zero_iff (a b : Nat) : cmp64 a b = 0 ↔ a = b := by
  unfold cmp64
  split_ifs with h1 h2
  · simp only [one_ne_zero, false_iff]
    omega
  · simp only [true_iff]
    exact h2
  · simp only [neg_eq_zero, one_ne_zero, false_iff]
    exact h2

theorem cmp64_antisymm (a b : Nat) : cmp64 a b = - cmp64 b a := by
  unfold cmp64
  rcases Nat.lt_trichotomy a b with h | h | h
  · have h1 : ¬ a > b := by omega
    have h2 : ¬ a = b := by omega
    simp [h1, h2, h]
  · subst h
    simp
  · have h1 : ¬ b > a := by omega
    have h2 : ¬ b = a := by omega
    simp [h1, h2, h]

/-- C10. `cmp64` is a consistent three-way comparison: for all naturals
`a`, `b`, `c` (hence for all values of `u64`) its result is `-1`, `0` or `1`,
it is the sign of the mathematical difference `a - b`, swapping the arguments
negates it, it is `0` exactly when `a = b`, and `cmp64 a b ≤ 0` with
`cmp64 b c ≤ 0` gives `cmp64 a c ≤ 0`; both sample comparators inherit the
antisymmetry and the transitivity. -/
theorem cmp64_three_way (a b c : Nat) :
    (cmp64 a b = -1 ∨ cmp64 a b = 0 ∨ cmp64 a b = 1) ∧
    cmp64 a b = Int.sign ((a : Int) - (b : Int)) ∧
    cmp64 a b = - cmp64 b a ∧
    (cmp64 a b = 0 ↔ a = b) ∧
    (cmp64 a b ≤ 0 → cmp64 b c ≤ 0 → cmp64 a c ≤ 0) ∧
    (∀ s1 s2 s3 : CallTraceSample,
      CallTraceSample.comparator s1 s2 = - CallTraceSample.comparator s2 s1 ∧
      (CallTraceSample.comparator s1 s2 ≤ 0 → CallTraceSample.comparator s2 s3 ≤ 0 →
        CallTraceSample.comparator s1 s3 ≤ 0)) ∧
    (∀ m1 m2 m3 : MethodSample,
      MethodSample.comparator m1 m2 = - MethodSample.comparator m2 m1 ∧
      (MethodSample.comparator m1 m2 ≤ 0 → MethodSample.comparator m2 m3 ≤ 0 →
        MethodSample.comparator m1 m3 ≤ 0)) := by
  refine ⟨?_, cmp64_eq_sign a b, cmp64_antisymm a b, cmp64_zero_iff a b, ?_, ?_, ?_⟩
  · unfold cmp64
    split_ifs <;> simp
  · intro h1 h2
    rw [cmp64_nonpos_iff] at *
    omega
  · intro s1 s2 s3
    refine ⟨cmp64_antisymm _ _, ?_⟩
    intro h1 h2
    unfold CallTraceSample.comparator at *
    rw [cmp64_nonpos_iff] at *
    omega
  · intro m1 m2 m3
    refine ⟨cmp64_antisymm _ _, ?_⟩
    intro h1 h2
    unfold MethodSample.comparator at *
    rw [cmp64_nonpos_iff] at *
    omega

/-- C10 at the counters `2 ^ 63 + 5`, `7` and `7`, whose difference exceeds
`2 ^ 31`. -/
theorem cmp64_three_way_witness :
    cmp64 (2 ^ 63 + 5) 7 = Int.sign (((2 ^ 63 + 5 : Nat) : Int) - ((7 : Nat) : Int)) ∧
    cmp64 (2 ^ 63 + 5) 7 = 1 ∧ cmp64 7 (2 ^ 63 + 5) = -1 ∧ cmp64 7 7 = 0 :=
  ⟨(cmp64_three_way (2 ^ 63 + 5) 7 7).2.1, by decide, by decide, by decide⟩

/-- C2. An array of `CallTraceSample` (of `MethodSample`) that is ordered by
its comparator, `comparator a[i] a[j] ≤ 0` for all `i < j`, has non-increasing
counters, `a[j]._counter ≤ a[i]._counter`; and for all samples the comparator
is negative exactly when the first counter is the larger, positive exactly
when it is the smaller, and zero exactly when the counters are equal. -/
theorem comparator_sorts_by_counter_descending
    (a : List CallTraceSample) (b : List MethodSample)
    (s1 s2 : CallTraceSample) (m1 m2 : MethodSample) :
    ((∀ (i j : Nat) (hij : i < j) (hj : j < a.length),
        CallTraceSample.comparator (a.get ⟨i, Nat.lt_trans hij hj⟩) (a.get ⟨j, hj⟩) ≤ 0) →
      ∀ (i j : Nat) (hij : i < j) (hj : j < a.length),
        (a.get ⟨j, hj⟩)._counter ≤ (a.get ⟨i, Nat.lt_trans hij hj⟩)._counter) ∧
    ((∀ (i j : Nat) (hij : i < j) (hj : j < b.length),
        MethodSample.comparator (b.get ⟨i, Nat.lt_trans hij hj⟩) (b.get ⟨j, hj⟩) ≤ 0) →
      ∀ (i j : Nat) (hij : i < j) (hj : j < b.length),
        (b.get ⟨j, hj⟩)._counter ≤ (b.get ⟨i, Nat.lt_trans hij hj⟩)._counter) ∧
    ((CallTraceSample.comparator s1 s2 < 0 ↔ s1._counter > s2._counter) ∧
     (CallTraceSample.comparator s1 s2 > 0 ↔ s1._counter < s2._counter) ∧
     (CallTraceSample.comparator s1 s2 = 0 ↔ s1._counter = s2._counter)) ∧
    ((MethodSample.comparator m1 m2 < 0 ↔ m1._counter > m2._counter) ∧
     (MethodSample.comparator m1 m2 > 0 ↔ m1._counter < m2._counter) ∧
     (MethodSample.comparator m1 m2 = 0 ↔ m1._counter = m2._counter)) := by
  refine ⟨?_, ?_, ⟨?_, ?_, ?_⟩, ⟨?_, ?_, ?_⟩⟩
  · intro h i j hij hj
    exact (cmp64_nonpos_iff _ _).1 (h i j hij hj)
  · intro h i j hij hj
    exact (cmp64_nonpos_iff _ _).1 (h i j hij hj)
  · exact cmp64_neg_iff _ _
  · exact cmp64_pos_iff _ _
  · exact (cmp64_zero_iff _ _).trans eq_comm
  · exact cmp64_neg_iff _ _
  · exact cmp64_pos_iff _ _
  · exact (cmp64_zero_iff _ _).trans eq_comm

/-- C2 on `sampleTraces`, the counters `500, 100, 100`: the array is ordered
by the comparator, and its last counter is at most its first. -/
theorem comparator_sorts_by_counter_descending_witness :
    List.Pairwise (fun x y => CallTraceSample.comparator x y ≤ 0) sampleTraces ∧
    (sampleTraces.get ⟨2, by decide⟩)._counter ≤ (sampleTraces.get ⟨0, by decide⟩)._counter :=
  ⟨by decide,
   (comparator_sorts_by_counter_descending sampleTraces [] ⟨0, 0, 0⟩ ⟨0, 0, 0⟩ ⟨0, 0⟩ ⟨0, 0⟩).1
    (fun i j hij hj =>
      (List.pairwise_iff_get.1
        (by decide : List.Pairwise (fun x y => CallTraceSample.comparator x y ≤ 0) sampleTraces))
        ⟨i, Nat.lt_trans hij hj⟩ ⟨j, hj⟩ hij)
    0 2 (by decide) (by decide)⟩

/-! ## The binding layer's defaults -/

/-- C1, refuted at `v = -1`: with the calls logged, `start0(-1)` invokes
`start(-1, 3600)`, not `start(10, 3600)`, and `dumpTraces0(-1)` invokes
`dumpTraces` with `max_traces = -1`, not `500`. -/
theorem start0_dumpTraces0_negative_not_defaulted :
    (-1 : Int) ≤ 0 ∧
    Java_one_profiler_AsyncProfiler_start0 recorder [] (-1) = [Call.start (-1) 3600] ∧
    Java_one_profiler_AsyncProfiler_start0 recorder [] (-1)
      ≠ recorder.start [] DEFAULT_INTERVAL DEFAULT_DURATION ∧
    (Java_one_profiler_AsyncProfiler_dumpTraces0 recorder textEnv [] (-1)).1
      = [Call.summary, Call.dumpTraces (-1)] ∧
    (Java_one_profiler_AsyncProfiler_dumpTraces0 recorder textEnv [] (-1)).1
      ≠ [Call.summary, Call.dumpTraces DEFAULT_TRACES_TO_DUMP] := by
  decide

/-- C1 (amended). The defaults are `DEFAULT_INTERVAL = 10` and
`DEFAULT_TRACES_TO_DUMP = 500`. For the requested value `v = 0`, `start0`
invokes `start` with interval `DEFAULT_INTERVAL` and `dumpTraces0` invokes
`dumpTraces` with `max_traces = DEFAULT_TRACES_TO_DUMP`; for every `v ≠ 0`,
negative values included, both pass `v` through unchanged. This holds for any
implementation `m` of the declared member functions and any state `p`. -/
theorem start0_dumpTraces0_default_iff_zero {P jstring : Type} (m : ProfilerMethods P)
    (env : JNIEnv jstring) (p : P) (v : Int) :
    DEFAULT_INTERVAL = 10 ∧ DEFAULT_TRACES_TO_DUMP = 500 ∧
    (v = 0 →
      Java_one_profiler_AsyncProfiler_start0 m p v
        = m.start p DEFAULT_INTERVAL DEFAULT_DURATION ∧
      Java_one_profiler_AsyncProfiler_dumpTraces0 m env p v
        = ((m.dumpTraces (m.summary p).1 DEFAULT_TRACES_TO_DUMP).1,
           env.NewStringUTF (c_str ((m.summary p).2
             ++ (m.dumpTraces (m.summary p).1 DEFAULT_TRACES_TO_DUMP).2)))) ∧
    (v ≠ 0 →
      Java_one_profiler_AsyncProfiler_start0 m p v = m.start p v DEFAULT_DURATION ∧
      Java_one_profiler_AsyncProfiler_dumpTraces0 m env p v
        = ((m.dumpTraces (m.summary p).1 v).1,
           env.NewStringUTF (c_str ((m.summary p).2 ++ (m.dumpTraces (m.summary p).1 v).2)))) := by
  refine ⟨rfl, rfl, ?_, ?_⟩
  · intro h
    subst h
    simp [Java_one_profiler_AsyncProfiler_start0, Java_one_profiler_AsyncProfiler_dumpTraces0]
  · intro h
    simp [Java_one_profiler_AsyncProfiler_start0, Java_one_profiler_AsyncProfiler_dumpTraces0, h]

/-- C1 (amended) on the logged calls: `start0(0)` invokes `start(10, 3600)`,
`start0(7)` invokes `start(7, 3600)` and `start0(-1)` invokes
`start(-1, 3600)`. -/
theorem start0_dumpTraces0_default_iff_zero_witness :
    Java_one_profiler_AsyncProfiler_start0 recorder [] 0 = [Call.start 10 3600] ∧
    Java_one_profiler_AsyncProfiler_start0 recorder [] 7 = [Call.start 7 3600] ∧
    Java_one_profiler_AsyncProfiler_start0 recorder [] (-1) = [Call.start (-1) 3600] :=
  ⟨((start0_dumpTraces0_default_iff_zero recorder textEnv [] 0).2.2.1 rfl).1,
   ((start0_dumpTraces0_default_iff_zero recorder textEnv [] 7).2.2.2 (by decide)).1,
   ((start0_dumpTraces0_default_iff_zero recorder textEnv [] (-1)).2.2.2 (by decide)).1⟩

/-! ## The sample count -/

/-- C3, refuted at `_samples = 2 ^ 31`, a value of `u64`: `getSamples`
returns `-2147483648`, not the counter. -/
theorem getSamples_wraps_at_two_pow_31 :
    (zeroProfiler (2 ^ 31))._samples < U64_RANGE ∧
    Java_one_profiler_AsyncProfiler_getSamples (zeroProfiler (2 ^ 31)) = -2147483648 ∧
    Java_one_profiler_AsyncProfiler_getSamples (zeroProfiler (2 ^ 31))
      ≠ (((zeroProfiler (2 ^ 31))._samples : Nat) : Int) := by
  decide

/-- C3 (amended). `getSamples` forwards `Profiler::samples()` unchanged, and
that value equals the counter `_samples` exactly when `_samples < 2 ^ 31`;
for every counter value the result lies in the range of a 32-bit signed
integer and is congruent to `_samples` modulo `2 ^ 32`. -/
theorem getSamples_eq_samples_iff {CodeCache SpinLock ASGCT_CallFrame : Type}
    (p : Profiler CodeCache SpinLock ASGCT_CallFrame) :
    Java_one_profiler_AsyncProfiler_getSamples p = p.samples ∧
    (Java_one_profiler_AsyncProfiler_getSamples p = (p._samples : Int) ↔ p._samples < 2 ^ 31) ∧
    (-(2 ^ 31) ≤ Java_one_profiler_AsyncProfiler_getSamples p ∧
      Java_one_profiler_AsyncProfiler_getSamples p < 2 ^ 31) ∧
    (Java_one_profiler_AsyncProfiler_getSamples p - (p._samples : Int)) % 2 ^ 32 = 0 := by
  unfold Java_one_profiler_AsyncProfiler_getSamples Profiler.samples u64_to_int
  refine ⟨rfl, ?_, ?_, ?_⟩
  · split_ifs with h <;> constructor <;> intro h' <;> omega
  · split_ifs with h <;> omega
  · split_ifs with h <;> omega

/-- C3 (amended) at `_samples = 600` and at `_samples = 2 ^ 32 + 600`. -/
theorem getSamples_eq_samples_iff_witness :
    Java_one_profiler_AsyncProfiler_getSamples (zeroProfiler 600) = 600 ∧
    Java_one_profiler_AsyncProfiler_getSamples (zeroProfiler (2 ^ 32 + 600)) = 600 :=
  ⟨(getSamples_eq_samples_iff (zeroProfiler 600)).2.1.2 (by decide), by decide⟩

/-! ## The dumped text -/

/-- C5. A freshly constructed `Profiler`, whatever its storage held before,
is idle: `running()` is `false`, `_frame_buffer` is `NULL`, the frame-buffer
capacity is `DEFAULT_FRAME_BUFFER_SIZE = 1024 * 1024 = 1048576`, and no
native library is registered (`_native_libs = 0`). -/
theorem construct_idle {CodeCache SpinLock ASGCT_CallFrame NameRef : Type}
    (cc : CodeCacheApi CodeCache NameRef) (mem : Profiler CodeCache SpinLock ASGCT_CallFrame) :
    (Profiler.construct cc mem).running = false ∧
    (Profiler.construct cc mem)._frame_buffer = none ∧
    (Profiler.construct cc mem)._frame_buffer_size = DEFAULT_FRAME_BUFFER_SIZE ∧
    DEFAULT_FRAME_BUFFER_SIZE = 1024 * 1024 ∧
    DEFAULT_FRAME_BUFFER_SIZE = 1048576 ∧
    (Profiler.construct cc mem)._native_libs = 0 :=
  ⟨rfl, rfl, rfl, rfl, by decide, rfl⟩

/-- C6. Each compiled-code notification updates `_java_code` alone, with its
arguments in their roles: `CompiledMethodLoad(method, code_size, code_addr)`
performs `add(code_addr, code_size, method)`,
`CompiledMethodUnload(method, code_addr)` performs `remove(code_addr, method)`,
and `DynamicCodeGenerated(name, address, length)` performs
`add(address, length, name_copy)` on the cache in which `addString(name)` has
stored `name_copy`; every other data member of the profiler is unchanged. -/
theorem notifications_update_java_code_only {CodeCache SpinLock ASGCT_CallFrame NameRef : Type}
    (cc : CodeCacheApi CodeCache NameRef) (p : Profiler CodeCache SpinLock ASGCT_CallFrame)
    (method code_addr address map compile_info : Nat) (code_size map_length length : Int)
    (name : String) :
    ((Profiler.CompiledMethodLoad cc p method code_size code_addr map_length map
          compile_info)._java_code
        = cc.add p._java_code code_addr code_size (CodeSymbol.method method) ∧
      p.sameExceptJavaCode
        (Profiler.CompiledMethodLoad cc p method code_size code_addr map_length map
          compile_info)) ∧
    ((Profiler.CompiledMethodUnload cc p method code_addr)._java_code
        = cc.remove p._java_code code_addr method ∧
      p.sameExceptJavaCode (Profiler.CompiledMethodUnload cc p method code_addr)) ∧
    ((Profiler.DynamicCodeGenerated cc p name address length)._java_code
        = cc.add (cc.addString p._java_code name).1 address length
            (CodeSymbol.name (cc.addString p._java_code name).2) ∧
      p.sameExceptJavaCode (Profiler.DynamicCodeGenerated cc p name address length)) := by
  refine ⟨⟨rfl, ?_⟩, ⟨rfl, ?_⟩, ⟨rfl, ?_⟩⟩ <;>
    exact ⟨rfl, rfl, rfl, rfl, rfl, rfl, rfl, rfl, rfl, rfl, rfl, rfl, rfl, rfl, rfl⟩

/-! ## The stack-walk status codes -/

/-- C7. The twelve status codes are pairwise distinct; for each code `c` the
index `-c` satisfies `0 ≤ -c < FAILURE_TYPES = 12`; and negation maps the
codes, in declaration order, onto the indices `0, 1, ..., 11`, so that every
valid index of `_failures` belongs to exactly one code. -/
theorem failure_codes_index_bijection :
    failureCodes.length = 12 ∧ FAILURE_TYPES = 12 ∧
    failureCodes.Nodup ∧
    (∀ c ∈ failureCodes, 0 ≤ -c ∧ -c < FAILURE_TYPES) ∧
    failureCodes.map (fun c => -c) = (List.range 12).map Int.ofNat ∧
    (failureCodes.map (fun c => -c)).Nodup ∧
    (∀ i : Int, 0 ≤ i → i < FAILURE_TYPES → ∃ c ∈ failureCodes, -c = i ∧
      ∀ d ∈ failureCodes, -d = i → d = c) := by
  refine ⟨by decide, rfl, by decide, by decide, by decide, by decide, ?_⟩
  intro i h0 h12
  refine ⟨-i, ?_, by omega, fun d _ hd => by omega⟩
  have h12' : i < 12 := h12
  interval_cases i <;> decide

/-- C7 at the index `11`: it is the index of `ticks_skipped` alone. -/
theorem failure_codes_index_bijection_witness :
    ∃ c ∈ failureCodes, -c = 11 ∧ ∀ d ∈ failureCodes, -d = 11 → d = c :=
  failure_codes_index_bijection.2.2.2.2.2.2 11 (by decide) (by decide)

/-- C8, refuted at "no frame": `ticks_no_Java_frame` is one of the twelve
status codes and it is `0`, which is not negative and is a frame count. -/
theorem no_Java_frame_not_negative :
    ticks_no_Java_frame ∈ failureCodes ∧ ticks_no_Java_frame = 0 ∧
    ¬ ticks_no_Java_frame < 0 ∧ ¬ (∀ c ∈ failureCodes, c < 0) := by
  decide

/-- C8 (amended). Every status code other than "no frame" is a negative
integer, and "no frame" is `0`: a failure status is never positive, so it
never coincides with a frame count `n > 0`. -/
theorem failure_codes_nonpositive :
    ticks_no_Java_frame = 0 ∧
    (∀ c ∈ failureCodes, c ≠ ticks_no_Java_frame → c < 0) ∧
    (∀ c ∈ failureCodes, c ≤ 0) ∧
    (∀ c ∈ failureCodes, ∀ n : Int, 0 < n → c ≠ n) := by
  refine ⟨rfl, by decide, by decide, ?_⟩
  intro c hc n hn hcn
  have h : ∀ c ∈ failureCodes, c ≤ 0 := by decide
  have := h c hc
  omega

/-- C8 (amended) at `ticks_GC_active`. -/
theorem failure_codes_nonpositive_witness : ticks_GC_active < 0 :=
  failure_codes_nonpositive.2.1 ticks_GC_active (by decide) (by decide)

/-! ## Shards and slots -/

/-- C9. With `shard h = h mod CONCURRENCY_LEVEL` (16) and
`slot h = h mod MAX_CALLTRACES` (32768), for all hashes `h1`, `h2` (all
naturals, hence all values of `u64`): `slot h1 % 16 = shard h1`, and
`slot h1 = slot h2` implies `shard h1 = shard h2`. -/
theorem slot_determines_shard (h1 h2 : Nat) :
    CONCURRENCY_LEVEL = 16 ∧ MAX_CALLTRACES = 32768 ∧
    slot h1 % CONCURRENCY_LEVEL.toNat = shard h1 ∧
    (slot h1 = slot h2 → shard h1 = shard h2) := by
  have e1 : CONCURRENCY_LEVEL.toNat = 16 := rfl
  have e2 : MAX_CALLTRACES.toNat = 32768 := rfl
  have key : ∀ h : Nat, slot h % 16 = shard h := by
    intro h
    unfold slot shard
    rw [e1, e2]
    omega
  refine ⟨rfl, rfl, ?_, ?_⟩
  · rw [e1]
    exact key h1
  · intro h
    rw [← key h1, ← key h2, h]

/-- C9 at the hashes `5` and `2 ^ 63 + 5`, which share the home slot `5`. -/
theorem slot_determines_shard_witness :
    slot 5 = slot (2 ^ 63 + 5) ∧ shard 5 = shard (2 ^ 63 + 5) :=
  ⟨by decide, (slot_determines_shard 5 (2 ^ 63 + 5)).2.2.2 (by decide)⟩

end AsyncProfiler
